import Mathlib

/-!
Verification of the connection-handling and access-control engine of the
sami-llm-proxy server (src/index.ts), as a shallow embedding in Lean.

Modelling conventions:
* Environment-derived configuration is a `Config` record; a JS
  `string | undefined` value is `Option String`, and JS truthiness of such
  a value (`!x`) is `jsFalsy`.
* HTTP header values are `Option String` (`none` = header absent).
* `Buffer.from(s, 'base64')` is modelled by `b64decodeBytes`: characters
  outside the base64 alphabet (including `=` padding) are ignored and the
  remaining sextets are packed into bytes, dropping a trailing partial
  byte — Node's forgiving decoder.  Decoded credentials are kept as byte
  lists and compared against the UTF-8 bytes of the configured strings,
  which coincides with the source's string comparison.
* JS `credentials.split(':')` with array destructuring
  `[username, password]` is `splitOnByte 58` plus `head?` / `[1]?`
  (`password` is `undefined`, i.e. `none`, when no colon is present).
-/

namespace SamiProxy

/-- Configuration snapshot read from the environment at startup:
`PROXY_AUTH_USERNAME`, `PROXY_AUTH_PASSWORD`, `ALLOWED_IPS`. -/
structure Config where
  username : Option String
  password : Option String
  allowedIPs : List String
deriving DecidableEq, Repr

/-- JS truthiness test for a `string | undefined` value: `undefined` and
the empty string are falsy. -/
def jsFalsy : Option String → Bool
  | none => true
  | some s => s.isEmpty

/-- `pre.data.isPrefixOf s.data`: model of JS `s.startsWith(pre)`,
stated over character lists so that concrete instances reduce. -/
def strStartsWith (s pre : String) : Bool :=
  pre.data.isPrefixOf s.data

/-- Model of JS `s.slice(n)` for a non-negative `n`. -/
def strDropChars (s : String) (n : Nat) : String :=
  String.mk (s.data.drop n)

/-- Value of a character in the standard base64 alphabet, `none` for any
other character (which Node's decoder ignores). -/
def b64Val (c : Char) : Option Nat :=
  if 'A' ≤ c ∧ c ≤ 'Z' then some (c.toNat - 'A'.toNat)
  else if 'a' ≤ c ∧ c ≤ 'z' then some (c.toNat - 'a'.toNat + 26)
  else if '0' ≤ c ∧ c ≤ '9' then some (c.toNat - '0'.toNat + 52)
  else if c = '+' then some 62
  else if c = '/' then some 63
  else none

/-- Pack a list of sextet values into bytes (4 sextets → 3 bytes,
3 sextets → 2 bytes, 2 sextets → 1 byte, a lone sextet is dropped). -/
def packSextets : List Nat → List Nat
  | a :: b :: c :: d :: rest =>
      (a * 4 + b / 16) :: (b % 16 * 16 + c / 4) :: (c % 4 * 64 + d) :: packSextets rest
  | [a, b] => [a * 4 + b / 16]
  | [a, b, c] => [a * 4 + b / 16, b % 16 * 16 + c / 4]
  | _ => []

/-- Model of `Buffer.from(s, 'base64')`: drop characters outside the
base64 alphabet, then pack the sextets into bytes. -/
def b64decodeBytes (s : String) : List Nat :=
  packSextets (s.data.filterMap b64Val)

/-- UTF-8 encoding of one Unicode code point. -/
def utf8Char (n : Nat) : List Nat :=
  if n < 0x80 then [n]
  else if n < 0x800 then [0xC0 + n / 64, 0x80 + n % 64]
  else if n < 0x10000 then [0xE0 + n / 4096, 0x80 + n / 64 % 64, 0x80 + n % 64]
  else [0xF0 + n / 262144, 0x80 + n / 4096 % 64, 0x80 + n / 64 % 64, 0x80 + n % 64]

/-- UTF-8 bytes of a string, as the byte list JS string comparison of the
decoded credential reduces to. -/
def strBytes (s : String) : List Nat :=
  (s.data.map (fun c => utf8Char c.toNat)).flatten

/-- Model of JS `String.prototype.split` on a one-byte separator, at the
byte level: `splitOnByte 58` is `credentials.split(':')`. -/
def splitOnByte (sep : Nat) : List Nat → List (List Nat)
  | [] => [[]]
  | b :: rest =>
      let r := splitOnByte sep rest
      if b = sep then [] :: r
      else
        match r with
        | h :: t => (b :: h) :: t
        | [] => [[b]]

/-- `checkAuth` (src/index.ts lines 43–59): if either credential is
unconfigured or empty the gate always passes; otherwise the header must
start with `'Basic '`, its remainder is base64-decoded, split on `':'`,
and the first two fields are compared against the configured username and
password. -/
def checkAuth (cfg : Config) (authHeader : Option String) : Bool :=
  if jsFalsy cfg.username || jsFalsy cfg.password then
    true
  else
    match authHeader with
    | none => false
    | some h =>
      if ¬ strStartsWith h "Basic " then false
      else
        let credentials := b64decodeBytes (strDropChars h 6)
        let parts := splitOnByte 58 credentials
        -- JS: const [username, password] = credentials.split(':')
        decide (parts.head? = some (strBytes (cfg.username.getD ""))) &&
        decide (parts[1]? = some (strBytes (cfg.password.getD "")))

/-- Model of `clientIP.replace(/^::ffff:/, '')`: strip one leading
IPv6-mapped-IPv4 marker. -/
def cleanAddr (ip : String) : String :=
  if strStartsWith ip "::ffff:" then strDropChars ip 7 else ip

/-- `checkIP` (src/index.ts lines 62–70): empty allowlist admits every
address; otherwise the stripped or the raw address must be listed. -/
def checkIP (cfg : Config) (clientIP : String) : Bool :=
  if cfg.allowedIPs.length = 0 then true
  else
    let cleanIP := cleanAddr clientIP
    cfg.allowedIPs.contains cleanIP || cfg.allowedIPs.contains clientIP

/-- Standard base64 alphabet character for a sextet value.
Modelled from the spec: the spec describes the expected credential as
"scheme-tagged base64-encoded `username:password`"; this canonical encoder
(with `=` padding, as `Buffer.toString('base64')` would produce) states
that claim-side notion for comparison with the source's `checkAuth`. -/
def b64Chr (n : Nat) : Char :=
  if n < 26 then Char.ofNat ('A'.toNat + n)
  else if n < 52 then Char.ofNat ('a'.toNat + n - 26)
  else if n < 62 then Char.ofNat ('0'.toNat + n - 52)
  else if n = 62 then '+'
  else '/'

/-- Canonical base64 encoding of a byte list, with padding. -/
def b64encodeBytes : List Nat → List Char
  | a :: b :: c :: rest =>
      b64Chr (a / 4) :: b64Chr (a % 4 * 16 + b / 16) ::
      b64Chr (b % 16 * 4 + c / 64) :: b64Chr (c % 64) :: b64encodeBytes rest
  | [a, b] => [b64Chr (a / 4), b64Chr (a % 4 * 16 + b / 16), b64Chr (b % 16 * 4), '=']
  | [a] => [b64Chr (a / 4), b64Chr (a % 4 * 16), '=', '=']
  | [] => []

/-- Canonical base64 encoding of a string's UTF-8 bytes. -/
def b64encode (s : String) : String :=
  String.mk (b64encodeBytes (strBytes s))

/-! ## The HTTP relay's target parsing and outbound request
(`proxyHttpRequest`, src/index.ts lines 73–108). -/

/-- The fields of Node's legacy `url.parse` result that
`proxyHttpRequest` reads.  `port` is the numeric value of the port
component when one is present (`none` when absent); a present port is a
non-empty string and hence truthy in JS even when it is `"0"`. -/
structure ParsedUrl where
  protocol : Option String
  hostname : Option String
  port : Option Nat
  host : Option String
deriving DecidableEq, Repr

/-- Line 82: `parsedUrl.port ? parseInt(parsedUrl.port, 10) :
(parsedUrl.protocol === 'https:' ? 443 : 80)`. -/
def urlPort (u : ParsedUrl) : Nat :=
  match u.port with
  | some n => n
  | none => if u.protocol = some "https:" then 443 else 80

/-- Line 83: `parsedUrl.protocol === 'https:' || port === 443`. -/
def isHttps (u : ParsedUrl) : Bool :=
  u.protocol = some "https:" || urlPort u = 443

/-- Line 91: `port || (isHttps ? 443 : 80)` — `0` is falsy in JS. -/
def finalPort (u : ParsedUrl) : Nat :=
  if urlPort u ≠ 0 then urlPort u else if isHttps u then 443 else 80

/-- Line 92: `parsedUrl.host || hostname:finalPort` (empty host string is
falsy). -/
def hostHeaderOf (u : ParsedUrl) : String :=
  match u.host with
  | some h => if h.isEmpty then (u.hostname.getD "null") ++ ":" ++ toString (finalPort u) else h
  | none => (u.hostname.getD "null") ++ ":" ++ toString (finalPort u)

/-- A header map: lowercased header name to value, `none` = absent.
Node lowercases incoming header names before they reach this code. -/
def Headers := String → Option String

/-- Lines 99–108: spread the original headers, overwrite `host` with the
reconstructed value, then delete the three proxy headers. -/
def forwardHeaders (hdrs : Headers) (hostHeader : String) : Headers :=
  fun k =>
    if k = "proxy-authorization" ∨ k = "proxy-connection" ∨ k = "connection" then none
    else if k = "host" then some hostHeader
    else hdrs k

/-- The outbound request options built at lines 94–108. -/
structure OutboundRequest where
  hostname : Option String
  port : Nat
  method : String
  headers : Headers

/-- Lines 94–108: assemble the outbound request from the original
request's method and headers and the parsed target. -/
def mkOutboundRequest (method : String) (hdrs : Headers) (u : ParsedUrl) : OutboundRequest :=
  { hostname := u.hostname
    port := finalPort u
    method := method
    headers := forwardHeaders hdrs (hostHeaderOf u) }

/-! ## The HTTP relay's upstream event handling
(`proxyHttpRequest`, src/index.ts lines 118–159).

The three callbacks registered on the outbound request — the response
callback, the `'error'` handler and the `setTimeout` handler — are
modelled as a step function over the per-session state they share:
`res.headersSent`, whether `proxyReq` was destroyed, and the ordered list
of writes made to the client response. -/

/-- An upstream-side event delivered to `proxyHttpRequest`'s callbacks. -/
inductive UpEvent
  | response (status : Nat)
  | upError
  | timeoutFired
deriving DecidableEq, Repr

/-- A write to the client: status code of the head written and the body
text. -/
structure ClientWrite where
  status : Nat
  body : String
deriving DecidableEq, Repr

/-- Shared state of one HTTP relay session. -/
structure RelayState where
  headersSent : Bool
  destroyed : Bool
  writes : List ClientWrite
deriving DecidableEq, Repr

/-- One callback invocation, translated from lines 118–159):
the response callback does `res.writeHead(status, headers)` and pipes;
the error handler writes a 502 only if `!res.headersSent`; the timeout
handler destroys `proxyReq` and writes a 504 only if `!res.headersSent`. -/
def relayStep (s : RelayState) : UpEvent → RelayState
  | .response code =>
      { s with headersSent := true, writes := s.writes ++ [⟨code, ""⟩] }
  | .upError =>
      if s.headersSent then s
      else { s with headersSent := true, writes := s.writes ++ [⟨502, "Proxy error"⟩] }
  | .timeoutFired =>
      if s.headersSent then { s with destroyed := true }
      else { s with headersSent := true, destroyed := true,
                    writes := s.writes ++ [⟨504, "Gateway Timeout"⟩] }

/-- Initial state of a relay session: nothing written, nothing destroyed. -/
def relayInit : RelayState := ⟨false, false, []⟩

/-- Run a relay session over a sequence of upstream events. -/
def relayRun (es : List UpEvent) : RelayState :=
  es.foldl relayStep relayInit

/-! ## The CONNECT handler (`server.on('connect')`, src/index.ts
lines 167–227). -/

/-- Model of JS `String.prototype.split` on a one-character separator,
over character lists. -/
def splitChar (sep : Char) : List Char → List (List Char)
  | [] => [[]]
  | c :: rest =>
      let r := splitChar sep rest
      if c = sep then [] :: r
      else
        match r with
        | h :: t => (c :: h) :: t
        | [] => [[c]]

/-- Model of JS `parseInt(s, 10)` restricted to its defined outcomes:
the value of the longest leading digit run, `none` when there is no
leading digit (JS `NaN`).  (Leading whitespace and sign handling are not
exercised by CONNECT targets.) -/
def jsParseInt (cs : List Char) : Option Nat :=
  let digits := cs.takeWhile (fun c => '0' ≤ c ∧ c ≤ '9')
  if digits.isEmpty then none
  else some (digits.foldl (fun acc c => acc * 10 + (c.toNat - '0'.toNat)) 0)

/-- Line 171: `const [hostname, portStr] = targetUrl.split(':')` — the
`hostname` component. -/
def connectHostname (url : String) : String :=
  String.mk (((splitChar ':' url.data).head?).getD [])

/-- Lines 171–172: the `port` component: `portStr ? parseInt(portStr, 10)
: 443` (`undefined` and the empty string are falsy; `none` here stands
for JS `NaN` from a non-numeric port). -/
def connectPort (url : String) : Option Nat :=
  match (splitChar ':' url.data)[1]? with
  | none => some 443
  | some [] => some 443
  | some cs => jsParseInt cs

/-- What the CONNECT gate (lines 181–203) does with a request: either a
response string is written to the client and the socket is ended, or the
handler proceeds to open the upstream connection. -/
inductive GateResult
  | reject (resp : String)
  | proceed (host : String) (port : Option Nat)
deriving DecidableEq, Repr

/-- The CONNECT handler's gate (lines 167–209): parse `host:port`, answer
400 on an empty hostname, 403 on an allowlist failure, 407 on a
credential failure, otherwise proceed to `net.createConnection`. -/
def connectGate (cfg : Config) (clientIP url : String) (authHeader : Option String) :
    GateResult :=
  let hostname := connectHostname url
  if hostname.isEmpty then
    .reject "HTTP/1.1 400 Bad Request\r\n\r\n"
  else if ¬ checkIP cfg clientIP then
    .reject "HTTP/1.1 403 Forbidden\r\n\r\n"
  else if ¬ checkAuth cfg authHeader then
    .reject "HTTP/1.1 407 Proxy Authentication Required\r\nProxy-Authenticate: Basic realm=\"Sami LLM Proxy\"\r\n\r\n"
  else
    .proceed hostname (connectPort url)

/-- An action taken by the CONNECT success callback. -/
inductive TunnelAction
  | writeClient (s : String)
  | writeTarget (bytes : List Nat)
  | startPipes
deriving DecidableEq, Repr

/-- The `net.createConnection` success callback (lines 213–227), in
order: write the establishment status line to the client, forward the
buffered `head` bytes to the target when non-empty, then start the two
pipes. -/
def connectEstablished (head : List Nat) : List TunnelAction :=
  [.writeClient "HTTP/1.1 200 Connection Established\r\n\r\n"]
  ++ (if head.length > 0 then [.writeTarget head] else [])
  ++ [.startPipes]

/-! ## The standard HTTP request handler (`server.on('request')`,
src/index.ts lines 282–379). -/

/-- Outcome of the request handler: a direct rejection, the direct
informational answer for relative URLs, or delegation to
`proxyHttpRequest` with the absolute target URL. -/
inductive ReqOutcome
  | reject (status : Nat) (body : String)
  | info (status : Nat) (contentType : String) (body : String)
  | proxyTo (targetUrl : String)
deriving DecidableEq, Repr

/-- The request handler (lines 282–379): IP check (403), credential check
(407), missing/empty URL (400), absolute URL → relay, relative URL →
direct informational 200. -/
def requestHandler (cfg : Config) (clientIP url : String) (authHeader : Option String) :
    ReqOutcome :=
  if ¬ checkIP cfg clientIP then
    .reject 403 "IP address not allowed"
  else if ¬ checkAuth cfg authHeader then
    .reject 407 "Proxy authentication required"
  else if url.isEmpty then
    .reject 400 "Bad Request: No URL"
  else if strStartsWith url "http://" || strStartsWith url "https://" then
    .proxyTo url
  else
    .info 200 "text/plain" "Sami LLM Proxy Server is running. Use this as HTTP/HTTPS proxy."

/-- The status code the handler answers directly, `none` when it
delegates to the relay. -/
def statusOf : ReqOutcome → Option Nat
  | .reject s _ => some s
  | .info s _ _ => some s
  | .proxyTo _ => none

/-- A standard HTTP request as the handler sees it. -/
structure Req where
  ip : String
  url : String
  auth : Option String
deriving DecidableEq, Repr

/-- A sequence of requests against one server process.  The source keeps
no mutable state shared between requests (there is no failure ledger in
src/index.ts), so the handler is applied to each request independently. -/
def processRequests (cfg : Config) (rs : List Req) : List ReqOutcome :=
  rs.map (fun r => requestHandler cfg r.ip r.url r.auth)

/-! ## The established tunnel (src/index.ts lines 224–257).

After `connectEstablished`, the two `pipe` calls forward each data chunk
unchanged to the opposite socket; the `targetSocket` `'timeout'` and
`'error'` handlers write an HTTP status line to the client socket (when
it is neither destroyed nor ended) and end the session. -/

/-- An event on an established tunnel. -/
inductive TunEvent
  | fromClient (bytes : List Nat)
  | fromTarget (bytes : List Nat)
  | targetTimeout
  | targetError
deriving DecidableEq, Repr

/-- Tunnel session state: bytes delivered to each side so far, and
whether the session has been torn down. -/
structure TunState where
  toTarget : List Nat
  toClient : List Nat
  closed : Bool
deriving DecidableEq, Repr

/-- One tunnel event, from the handlers at lines 224–257: `pipe` appends
the chunk to the opposite side's stream; the target-socket timeout
handler writes `HTTP/1.1 504 Gateway Timeout\r\n\r\n` to the client and
ends the session; the target-socket error handler does the same with a
502 line. -/
def tunStep (s : TunState) : TunEvent → TunState
  | .fromClient bs => if s.closed then s else { s with toTarget := s.toTarget ++ bs }
  | .fromTarget bs => if s.closed then s else { s with toClient := s.toClient ++ bs }
  | .targetTimeout =>
      if s.closed then s
      else { s with toClient := s.toClient ++ strBytes "HTTP/1.1 504 Gateway Timeout\r\n\r\n",
                    closed := true }
  | .targetError =>
      if s.closed then s
      else { s with toClient := s.toClient ++ strBytes "HTTP/1.1 502 Bad Gateway\r\n\r\n",
                    closed := true }

/-- Run an established tunnel over a sequence of events. -/
def tunRun (es : List TunEvent) : TunState :=
  es.foldl tunStep ⟨[], [], false⟩

/-- All bytes the target sent on the tunnel, in order. -/
def targetSent (es : List TunEvent) : List Nat :=
  (es.map (fun e => match e with | .fromTarget bs => bs | _ => [])).flatten

/-- All bytes the client sent on the tunnel, in order. -/
def clientSent (es : List TunEvent) : List Nat :=
  (es.map (fun e => match e with | .fromClient bs => bs | _ => [])).flatten

/-- Whether a tunnel action is a write to the client socket. -/
def isClientWrite : TunnelAction → Bool
  | .writeClient _ => true
  | _ => false

end SamiProxy

namespace SamiProxy

/-! ## Helper lemmas -/

/-- The request handler answers only 403, 407, 400 or 200 directly; in
particular it never answers 429 (there is no lockout path in the
source). -/
theorem statusOf_requestHandler_ne (cfg : Config) (ip url : String)
    (auth : Option String) : statusOf (requestHandler cfg ip url auth) ≠ some 429 := by
  unfold requestHandler
  split_ifs <;> simp [statusOf]

/-- Once response headers have been sent, later upstream error or timeout
events add no client writes, keep `headersSent`, and preserve
`destroyed`. -/
theorem relay_foldl_after_headers (es : List UpEvent) (s : RelayState)
    (hs : s.headersSent = true) (hnr : ∀ c, UpEvent.response c ∉ es) :
    (es.foldl relayStep s).writes = s.writes ∧
    (es.foldl relayStep s).headersSent = true ∧
    (es.foldl relayStep s).destroyed = (s.destroyed || es.contains .timeoutFired) := by
  induction es generalizing s with
  | nil => simp [hs]
  | cons e rest ih =>
    have hnr' : ∀ c, UpEvent.response c ∉ rest := by
      intro c hc
      exact hnr c (List.mem_cons_of_mem _ hc)
    obtain ⟨hSent, dstr, ws⟩ := s
    simp only at hs
    subst hs
    cases e with
    | response c => exact absurd (List.mem_cons_self _ _) (hnr c)
    | upError =>
      simpa [relayStep] using ih ⟨true, dstr, ws⟩ rfl hnr'
    | timeoutFired =>
      have h2 := ih ⟨true, true, ws⟩ rfl hnr'
      simp only [List.foldl_cons, relayStep, if_true]
      refine ⟨h2.1, h2.2.1, ?_⟩
      rw [h2.2.2]
      simp [List.contains_cons]

/-! ## Claim theorems -/

/-- C3 (counterexample): with credentials `admin`/`secret` configured,
the header `Basic ` + base64(`admin:secret:x`) is accepted by
`checkAuth`, yet it is not the string `Basic ` followed by the base64
encoding of `admin:secret` — refuting the claim's "only if" direction
(extra colon-separated fields after the password are ignored). -/
theorem checkAuth_junk_credential_accepted :
    checkAuth ⟨some "admin", some "secret", []⟩ (some "Basic YWRtaW46c2VjcmV0Ong=") = true ∧
    ("Basic YWRtaW46c2VjcmV0Ong=" : String) ≠ "Basic " ++ b64encode ("admin" ++ ":" ++ "secret") := by
  decide

/-- C3 (amended): when both credentials are configured and non-empty,
`checkAuth` accepts a header iff it is present, starts with `Basic `,
and the base64 decode of its remainder, split on `:`, has first field
equal to the username and second field equal to the password (any later
fields are ignored, and every base64 spelling that decodes to the same
bytes is accepted); a missing header and every other failure yield the
same result `false`; when either credential is missing the check accepts
every request (see the C10 theorem). -/
theorem checkAuth_accepts_iff (u p : String) (ips : List String) (h : Option String)
    (hu : u.isEmpty = false) (hp : p.isEmpty = false) :
    checkAuth ⟨some u, some p, ips⟩ h = true ↔
      ∃ s, h = some s ∧ strStartsWith s "Basic " = true ∧
        (splitOnByte 58 (b64decodeBytes (strDropChars s 6))).head? = some (strBytes u) ∧
        (splitOnByte 58 (b64decodeBytes (strDropChars s 6)))[1]? = some (strBytes p) := by
  unfold checkAuth
  simp only [jsFalsy, hu, hp, Bool.or_self, Bool.false_eq_true, if_false]
  cases h with
  | none => simp
  | some s =>
    by_cases hb : strStartsWith s "Basic " = true
    · simp [hb]
    · simp [hb]

/-- C3 (witness for the amended theorem). -/
theorem checkAuth_accepts_iff_witness :
    checkAuth ⟨some "admin", some "secret", []⟩ (some "Basic YWRtaW46c2VjcmV0") = true := by
  refine (checkAuth_accepts_iff "admin" "secret" [] (some "Basic YWRtaW46c2VjcmV0")
    (by decide) (by decide)).mpr ?_
  exact ⟨"Basic YWRtaW46c2VjcmV0", rfl, by decide, by decide, by decide⟩

/-- C10: when exactly one of the credential pair is configured (username
truthy and password falsy, or vice versa), `checkAuth` returns `true`
for every header value, exactly as when no credentials are configured at
all. -/
theorem checkAuth_half_configured_bypass (cfg : Config) (h : Option String)
    (hone : (jsFalsy cfg.username = false ∧ jsFalsy cfg.password = true) ∨
            (jsFalsy cfg.username = true ∧ jsFalsy cfg.password = false)) :
    checkAuth cfg h = true ∧
    checkAuth cfg h = checkAuth ⟨none, none, cfg.allowedIPs⟩ h := by
  have hor : jsFalsy cfg.username = true ∨ jsFalsy cfg.password = true := by
    rcases hone with ⟨_, h1⟩ | ⟨h1, _⟩
    · exact Or.inr h1
    · exact Or.inl h1
  have h1 : checkAuth cfg h = true := by
    unfold checkAuth
    rcases hor with h1 | h1 <;> simp [h1]
  have h2 : checkAuth ⟨none, none, cfg.allowedIPs⟩ h = true := by
    unfold checkAuth
    simp [jsFalsy]
  exact ⟨h1, h1.trans h2.symm⟩

/-- C10 (witness): username configured, password absent — a nonsense
header is accepted. -/
theorem checkAuth_half_configured_bypass_witness :
    checkAuth ⟨some "admin", none, []⟩ (some "Basic bm9uc2Vuc2U=") = true := by
  exact (checkAuth_half_configured_bypass ⟨some "admin", none, []⟩
    (some "Basic bm9uc2Vuc2U=") (Or.inl ⟨by decide, by decide⟩)).1

/-- C7: the HTTP relay treats the upstream as HTTPS iff the URL's scheme
is `https` or its effective (connected-to) port is 443, and when no port
is given it connects to port 80 for `http` and 443 for `https`. -/
theorem relay_https_selection (u : ParsedUrl) :
    (isHttps u = true ↔ (u.protocol = some "https:" ∨ finalPort u = 443)) ∧
    (u.port = none → finalPort u = if u.protocol = some "https:" then 443 else 80) := by
  have hfor : isHttps u = true ↔ (u.protocol = some "https:" ∨ urlPort u = 443) := by
    simp [isHttps]
  constructor
  · constructor
    · intro hh
      rcases hfor.mp hh with hp | h4
      · exact Or.inl hp
      · refine Or.inr ?_
        unfold finalPort
        rw [h4]
        simp
    · intro hor
      rcases hor with hp | hf
      · exact hfor.mpr (Or.inl hp)
      · by_cases h0 : urlPort u ≠ 0
        · refine hfor.mpr (Or.inr ?_)
          unfold finalPort at hf
          rwa [if_pos h0] at hf
        · unfold finalPort at hf
          rw [if_neg h0] at hf
          by_cases hh : isHttps u = true
          · exact hh
          · rw [if_neg hh] at hf
            exact absurd hf (by norm_num)
  · intro hn
    by_cases hp : u.protocol = some "https:" <;>
      simp [finalPort, urlPort, hn, hp]

/-- C7 (witness): an explicit port 443 with an `http` scheme is treated
as HTTPS, and a portless `https` URL connects to 443. -/
theorem relay_https_selection_witness :
    isHttps ⟨some "http:", some "example.com", some 443, none⟩ = true ∧
    finalPort ⟨some "https:", some "example.com", none, none⟩ = 443 := by
  constructor
  · exact (relay_https_selection ⟨some "http:", some "example.com", some 443, none⟩).1.mpr
      (Or.inr (by decide))
  · have h := (relay_https_selection ⟨some "https:", some "example.com", none, none⟩).2 rfl
    simpa using h

/-- C8: the outbound request carries the original method; the headers
`proxy-authorization`, `proxy-connection` and `connection` never appear
in it; the `host` header is the one reconstructed from the target; and
every other header is forwarded unchanged. -/
theorem outbound_request_headers (method : String) (hdrs : Headers) (u : ParsedUrl)
    (k : String)
    (hk : k ≠ "proxy-authorization" ∧ k ≠ "proxy-connection" ∧ k ≠ "connection" ∧
          k ≠ "host") :
    (mkOutboundRequest method hdrs u).method = method ∧
    (mkOutboundRequest method hdrs u).headers "proxy-authorization" = none ∧
    (mkOutboundRequest method hdrs u).headers "proxy-connection" = none ∧
    (mkOutboundRequest method hdrs u).headers "connection" = none ∧
    (mkOutboundRequest method hdrs u).headers "host" = some (hostHeaderOf u) ∧
    (mkOutboundRequest method hdrs u).headers k = hdrs k := by
  obtain ⟨h1, h2, h3, h4⟩ := hk
  refine ⟨rfl, ?_, ?_, ?_, ?_, ?_⟩ <;>
    simp [mkOutboundRequest, forwardHeaders, h1, h2, h3, h4]

/-- C8 (witness): a request with an `authorization` header and an
original `host` header, forwarded to `example.com:80`. -/
theorem outbound_request_headers_witness :
    (mkOutboundRequest "POST"
        (fun k => if k = "authorization" then some "Bearer t" else
                  if k = "host" then some "proxy.local" else none)
        ⟨some "http:", some "example.com", none, some "example.com"⟩).headers
      "authorization" = some "Bearer t" := by
  exact (outbound_request_headers "POST"
    (fun k => if k = "authorization" then some "Bearer t" else
              if k = "host" then some "proxy.local" else none)
    ⟨some "http:", some "example.com", none, some "example.com"⟩
    "authorization" ⟨by decide, by decide, by decide, by decide⟩).2.2.2.2.2.trans
    (by decide)

/-- C4: on an HTTP relay session whose upstream produces no response, the
timeout handler destroys the upstream request, and the writes made to the
client after the timeout fires are exactly one 504 `Gateway Timeout`
answer when response headers had not yet been sent, and nothing at all
when they had — in particular never a duplicate or partial write. -/
theorem relay_timeout_504 (pre post : List UpEvent)
    (_hpre : ∀ c, UpEvent.response c ∉ pre)
    (hpost : ∀ c, UpEvent.response c ∉ post) :
    (relayRun (pre ++ UpEvent.timeoutFired :: post)).destroyed = true ∧
    (relayRun (pre ++ UpEvent.timeoutFired :: post)).writes =
      (relayRun pre).writes ++
        (if (relayRun pre).headersSent then [] else [⟨504, "Gateway Timeout"⟩]) := by
  have hsplit : relayRun (pre ++ UpEvent.timeoutFired :: post) =
      post.foldl relayStep (relayStep (relayRun pre) .timeoutFired) := by
    unfold relayRun
    rw [List.foldl_append, List.foldl_cons]
  rw [hsplit]
  by_cases hs : (relayRun pre).headersSent = true
  · have hstep : relayStep (relayRun pre) .timeoutFired =
        { relayRun pre with destroyed := true } := by
      simp [relayStep, hs]
    rw [hstep]
    have h2 := relay_foldl_after_headers post { relayRun pre with destroyed := true }
      hs hpost
    refine ⟨?_, ?_⟩
    · rw [h2.2.2]; simp
    · rw [h2.1]; simp [hs]
  · have hs' : (relayRun pre).headersSent = false := by
      simpa using hs
    have hstep : relayStep (relayRun pre) .timeoutFired =
        (⟨true, true, (relayRun pre).writes ++ [⟨504, "Gateway Timeout"⟩]⟩ : RelayState) := by
      simp [relayStep, hs']
    rw [hstep]
    have h2 := relay_foldl_after_headers post
      (⟨true, true, (relayRun pre).writes ++ [⟨504, "Gateway Timeout"⟩]⟩ : RelayState) rfl hpost
    refine ⟨?_, ?_⟩
    · rw [h2.2.2]; simp
    · rw [h2.1]; simp [hs']

/-- C4 (witness): a session with no upstream traffic before the timeout
and a late upstream error after it: the client gets exactly the 504. -/
theorem relay_timeout_504_witness :
    (relayRun ([] ++ UpEvent.timeoutFired :: [UpEvent.upError])).destroyed = true ∧
    (relayRun ([] ++ UpEvent.timeoutFired :: [UpEvent.upError])).writes =
      (relayRun []).writes ++
        (if (relayRun []).headersSent then [] else [⟨504, "Gateway Timeout"⟩]) := by
  exact relay_timeout_504 [] [UpEvent.upError]
    (by intro c hc; simp at hc)
    (by intro c hc; simp at hc)

/-- C5: for a CONNECT request that passes the gate and whose upstream
connection succeeds, the success callback's first action is the single
`HTTP/1.1 200 Connection Established` status write — the only write to
the client before the pipes start — any buffered `head` bytes are
forwarded to the upstream before the pipes start, and starting the
bidirectional pipes is the last action. -/
theorem connect_establishment_order (cfg : Config) (ip url : String)
    (auth : Option String) (head : List Nat) (host : String) (port : Option Nat)
    (hgate : connectGate cfg ip url auth = .proceed host port) :
    (∀ r, connectGate cfg ip url auth ≠ .reject r) ∧
    (connectEstablished head).head? =
      some (.writeClient "HTTP/1.1 200 Connection Established\r\n\r\n") ∧
    ((connectEstablished head).takeWhile
        (fun a => a ≠ TunnelAction.startPipes)).filter isClientWrite
      = [.writeClient "HTTP/1.1 200 Connection Established\r\n\r\n"] ∧
    (head ≠ [] →
      TunnelAction.writeTarget head ∈
        (connectEstablished head).takeWhile (fun a => a ≠ TunnelAction.startPipes)) ∧
    (connectEstablished head).getLast? = some .startPipes := by
  refine ⟨?_, ?_, ?_, ?_, ?_⟩
  · intro r hr
    rw [hgate] at hr
    exact GateResult.noConfusion hr
  · cases head <;> rfl
  · cases head <;> simp [connectEstablished, isClientWrite]
  · intro hne
    cases head with
    | nil => exact absurd rfl hne
    | cons b bs => simp [connectEstablished]
  · cases head <;> simp [connectEstablished]

/-- C5 (witness): open allowlist, no credentials, target
`example.com:443`, one buffered byte. -/
theorem connect_establishment_order_witness :
    TunnelAction.writeTarget [22] ∈
      (connectEstablished [22]).takeWhile (fun a => a ≠ TunnelAction.startPipes) := by
  exact (connect_establishment_order ⟨none, none, []⟩ "9.9.9.9" "example.com:443" none
    [22] "example.com" (some 443) (by decide)).2.2.2.1 (by decide)

/-- C2 (counterexample): with allowlist `["1.2.3.4"]`, the address
`9.9.9.9` is a member in neither form, yet a CONNECT request whose
target has an empty hostname (`:443`) is answered `400 Bad Request`,
not `403 Forbidden` — the target check precedes the allowlist check. -/
theorem connect_bad_target_skips_allowlist :
    checkIP ⟨none, none, ["1.2.3.4"]⟩ "9.9.9.9" = false ∧
    connectGate ⟨none, none, ["1.2.3.4"]⟩ "9.9.9.9" ":443" none
      = .reject "HTTP/1.1 400 Bad Request\r\n\r\n" := by
  decide

/-- C2 (amended): for a non-empty allowlist and a client address that is
a member in neither raw nor stripped form, every standard HTTP request,
and every CONNECT request whose target has a non-empty hostname, is
answered `403 Forbidden` and the connection ended, for every credential
header (so before any credential check) and without proceeding to any
upstream connection; a CONNECT request with an empty hostname is instead
answered `400 Bad Request` before the allowlist check. -/
theorem allowlist_rejection (cfg : Config) (ip url : String) (auth : Option String)
    (hne : cfg.allowedIPs ≠ [])
    (hclean : cfg.allowedIPs.contains (cleanAddr ip) = false)
    (hraw : cfg.allowedIPs.contains ip = false) :
    ((connectHostname url).isEmpty = false →
        connectGate cfg ip url auth = .reject "HTTP/1.1 403 Forbidden\r\n\r\n") ∧
    requestHandler cfg ip url auth = .reject 403 "IP address not allowed" := by
  have hlen : ¬ cfg.allowedIPs.length = 0 := by
    simpa [List.length_eq_zero] using hne
  have hip : checkIP cfg ip = false := by
    unfold checkIP
    rw [if_neg hlen]
    show (cfg.allowedIPs.contains (cleanAddr ip) || cfg.allowedIPs.contains ip) = false
    rw [hclean, hraw]
    rfl
  constructor
  · intro hh
    simp [connectGate, hh, hip]
  · simp [requestHandler, hip]

/-- C2 (witness for the amended theorem). -/
theorem allowlist_rejection_witness :
    connectGate ⟨none, none, ["1.2.3.4"]⟩ "9.9.9.9" "example.com:443" (some "Basic eDp5")
      = .reject "HTTP/1.1 403 Forbidden\r\n\r\n" ∧
    requestHandler ⟨none, none, ["1.2.3.4"]⟩ "9.9.9.9" "example.com:443" (some "Basic eDp5")
      = .reject 403 "IP address not allowed" := by
  refine ⟨?_, ?_⟩
  · exact (allowlist_rejection ⟨none, none, ["1.2.3.4"]⟩ "9.9.9.9" "example.com:443"
      (some "Basic eDp5") (by decide) (by decide) (by decide)).1 (by decide)
  · exact (allowlist_rejection ⟨none, none, ["1.2.3.4"]⟩ "9.9.9.9" "example.com:443"
      (some "Basic eDp5") (by decide) (by decide) (by decide)).2

/-- C9 (counterexample): a `GET /health` from an address outside the
configured allowlist is answered `403` by the IP gate — the request does
pass through Access Control, and the answer is not a JSON status body. -/
theorem health_requires_access_control :
    requestHandler ⟨none, none, ["1.2.3.4"]⟩ "9.9.9.9" "/health" none
      = .reject 403 "IP address not allowed" := by
  decide

/-- C9 (amended): there is no dedicated health endpoint: `GET /health`
(or `/status`) is treated like any other relative-URL request — it is
subject to the IP allowlist and the credential check, and only when both
pass is it answered directly, with status 200, content type
`text/plain`, and the fixed informational message (not a JSON status
body); it never reaches either relay. -/
theorem health_answered_as_info (cfg : Config) (ip : String) (auth : Option String)
    (hip : checkIP cfg ip = true) (hauth : checkAuth cfg auth = true) :
    requestHandler cfg ip "/health" auth
      = .info 200 "text/plain"
          "Sami LLM Proxy Server is running. Use this as HTTP/HTTPS proxy." ∧
    requestHandler cfg ip "/status" auth
      = .info 200 "text/plain"
          "Sami LLM Proxy Server is running. Use this as HTTP/HTTPS proxy." := by
  have e1 : ("/health" : String).isEmpty = false := by decide
  have e2 : ("/status" : String).isEmpty = false := by decide
  have s1 : strStartsWith "/health" "http://" = false := by decide
  have s2 : strStartsWith "/health" "https://" = false := by decide
  have s3 : strStartsWith "/status" "http://" = false := by decide
  have s4 : strStartsWith "/status" "https://" = false := by decide
  constructor
  · simp [requestHandler, hip, hauth, e1, s1, s2]
  · simp [requestHandler, hip, hauth, e2, s3, s4]

/-- C9 (witness for the amended theorem). -/
theorem health_answered_as_info_witness :
    requestHandler ⟨none, none, []⟩ "9.9.9.9" "/health" none
      = .info 200 "text/plain"
          "Sami LLM Proxy Server is running. Use this as HTTP/HTTPS proxy." := by
  exact (health_answered_as_info ⟨none, none, []⟩ "9.9.9.9" none
    (by decide) (by decide)).1

/-- C1 (counterexample): credentials `admin`/`secret`, empty allowlist;
ten consecutive failed credential checks from `7.7.7.7` followed by a
request with correct credentials from the same address: the eleventh
request is delegated to the relay, and no request is answered with the
lockout status 429 — for any threshold at most ten, the claimed lockout
does not occur. -/
theorem lockout_absent_counterexample :
    processRequests ⟨some "admin", some "secret", []⟩
        (List.replicate 10 ⟨"7.7.7.7", "http://example.com/", some "Basic d3Jvbmc6d3Jvbmc="⟩
          ++ [⟨"7.7.7.7", "http://example.com/", some "Basic YWRtaW46c2VjcmV0"⟩])
      = List.replicate 10 (.reject 407 "Proxy authentication required")
          ++ [.proxyTo "http://example.com/"] ∧
    statusOf (ReqOutcome.proxyTo "http://example.com/") ≠ some 429 := by
  decide

/-- C1 (amended): the server keeps no brute-force state: the outcome of
each request depends only on that request, so a request passing the IP
and credential checks is admitted (relayed, or answered with the direct
400/200 for a missing/relative URL) regardless of any prior failed
attempts from the same address, and no request in any sequence is ever
answered with status 429. -/
theorem no_lockout_state (cfg : Config) (history : List Req) (r : Req)
    (hip : checkIP cfg r.ip = true) (hauth : checkAuth cfg r.auth = true) :
    (processRequests cfg (history ++ [r])).getLast? =
      some (requestHandler cfg r.ip r.url r.auth) ∧
    (requestHandler cfg r.ip r.url r.auth = .reject 400 "Bad Request: No URL" ∨
     requestHandler cfg r.ip r.url r.auth = .proxyTo r.url ∨
     requestHandler cfg r.ip r.url r.auth =
       .info 200 "text/plain"
         "Sami LLM Proxy Server is running. Use this as HTTP/HTTPS proxy.") ∧
    (∀ o ∈ processRequests cfg (history ++ [r]), statusOf o ≠ some 429) := by
  refine ⟨?_, ?_, ?_⟩
  · unfold processRequests
    rw [List.map_append, List.map_cons, List.map_nil, List.getLast?_append_cons]
    rfl
  · unfold requestHandler
    simp only [hip, hauth, Bool.not_eq_true, Bool.true_eq_false, if_false]
    split_ifs <;> tauto
  · intro o ho
    unfold processRequests at ho
    rcases List.mem_map.mp ho with ⟨r', _, hr'⟩
    rw [← hr']
    exact statusOf_requestHandler_ne cfg r'.ip r'.url r'.auth

/-- C1 (witness for the amended theorem). -/
theorem no_lockout_state_witness :
    (processRequests ⟨some "admin", some "secret", []⟩
        ([⟨"7.7.7.7", "http://example.com/", some "Basic d3Jvbmc6d3Jvbmc="⟩]
          ++ [⟨"7.7.7.7", "http://example.com/", some "Basic YWRtaW46c2VjcmV0"⟩])).getLast? =
      some (requestHandler ⟨some "admin", some "secret", []⟩ "7.7.7.7"
        "http://example.com/" (some "Basic YWRtaW46c2VjcmV0")) := by
  exact (no_lockout_state ⟨some "admin", some "secret", []⟩
    [⟨"7.7.7.7", "http://example.com/", some "Basic d3Jvbmc6d3Jvbmc="⟩]
    ⟨"7.7.7.7", "http://example.com/", some "Basic YWRtaW46c2VjcmV0"⟩
    (by decide) (by decide)).1

/-- C6 (code evaluated at the failing input): on an established tunnel
where the client has sent bytes `[22, 3, 1]` and the target has sent
`[22, 3, 3]`, the target socket's idle-timeout handler appends the ASCII
bytes of `HTTP/1.1 504 Gateway Timeout\r\n\r\n` to the client-bound
stream — the client receives bytes the target never sent, so the tunnel
is not content-agnostic as claimed (and as the spec's raw-tunnel contract
requires). -/
theorem tunnel_timeout_writes_into_stream :
    (tunRun [.fromClient [22, 3, 1], .fromTarget [22, 3, 3], .targetTimeout]).toClient
      ≠ targetSent [.fromClient [22, 3, 1], .fromTarget [22, 3, 3], .targetTimeout] ∧
    (tunRun [.fromClient [22, 3, 1], .fromTarget [22, 3, 3], .targetTimeout]).toClient
      = [22, 3, 3] ++ strBytes "HTTP/1.1 504 Gateway Timeout\r\n\r\n" := by
  decide

end SamiProxy
